import Mathlib

/-
Verification of the thread-aware dual-sink logging subsystem of mutils
(src/include/mutils/logger.hpp): the ANSI stripper used for file output,
the LogSink open/close lifecycle, and the Logger message composition and
dispatch policy (stream selection, flush policy, thread accent colors,
debug elision).
-/

namespace Mutils

/-- The ASCII ESC byte `'\033'` (0x1b), the escape-sequence introducer. -/
def escChar : Char := Char.ofNat 27

/-- The line terminator `'\n'` appended after every file write. -/
def lineFeed : Char := Char.ofNat 10

/-- Mirrors the letter test in `LogSink::write_to_file`:
`(c >= 'A' && c <= 'Z') || (c >= 'a' && c <= 'z')`. -/
def isAsciiLetter (c : Char) : Bool :=
  (decide ('A' ≤ c) && decide (c ≤ 'Z')) || (decide ('a' ≤ c) && decide (c ≤ 'z'))

/-- The per-character loop of `LogSink::write_to_file`: one boolean state bit
`in_escape`; on ESC enter escape mode without emitting; while in escape mode
discard bytes until an ASCII letter is seen (the letter is also discarded);
bytes seen outside escape mode are emitted verbatim. -/
def stripAnsiAux : Bool → List Char → List Char
  | _, [] => []
  | true, c :: rest =>
      if isAsciiLetter c then stripAnsiAux false rest
      else stripAnsiAux true rest
  | false, c :: rest =>
      if c = escChar then stripAnsiAux true rest
      else c :: stripAnsiAux false rest

/-- The stripping pass as applied to a whole message (state starts outside
escape mode). -/
def stripAnsi (msg : List Char) : List Char := stripAnsiAux false msg

/-- Embeds `LogSink::write_to_file msg`: the bytes appended to the file,
namely the ANSI-stripped message followed by one line terminator. -/
def write_to_file (msg : List Char) : List Char := stripAnsi msg ++ [lineFeed]

/-- Spec-side helper: consume the rest of an ESC-opened span, discarding
non-alphabetic bytes up to and including the first ASCII letter; with no
terminating letter before end of input everything is discarded. -/
def dropEscapeSpan : List Char → List Char
  | [] => []
  | c :: rest => if isAsciiLetter c then rest else dropEscapeSpan rest

/-- Spec-side stripping function, transcribed from the claim's words: output
the same sequence with every span of the form ESC followed by zero or more
non-alphabetic bytes terminated by one ASCII letter removed, and nothing else
removed; an ESC-opened span with no terminating letter discards the remainder. -/
def stripAnsiSpec : List Char → List Char
  | [] => []
  | c :: rest =>
      if c = escChar then stripAnsiSpec (dropEscapeSpan rest)
      else c :: stripAnsiSpec rest
  termination_by l => l.length
  decreasing_by
    · have key : ∀ l : List Char, (dropEscapeSpan l).length ≤ l.length := by
        intro l
        induction l with
        | nil => simp [dropEscapeSpan]
        | cons c r ih =>
            by_cases h : isAsciiLetter c
            · simp [dropEscapeSpan, h]
            · simp only [dropEscapeSpan, h, Bool.false_eq_true, if_false]
              exact le_trans ih (Nat.le_succ _)
      exact Nat.lt_succ_of_le (key rest)
    · exact Nat.lt_succ_self _

/-- The fixed 9-entry accent-color palette from `Logger::compute_thread_color`. -/
def colors : List String :=
  ["\x1b[96m", "\x1b[95m", "\x1b[94m", "\x1b[93m", "\x1b[92m",
   "\x1b[91m", "\x1b[36m", "\x1b[35m", "\x1b[34m"]

/-- Embeds `Logger::compute_thread_color`: index the fixed palette with the
thread-id hash modulo 9 (`colors[hash % 9]`; the index is always in bounds,
the default is never taken). -/
def compute_thread_color (hash : Nat) : String :=
  colors.getD (hash % 9) ""

/-- The level colors and the reset code set by the `Logger` constructor on a
terminal, together with the accent palette and the empty string used when no
terminal is attached: every color field of every `Logger` lies here. -/
def colorUniverse : List String :=
  colors ++ ["\x1b[32m", "\x1b[33m", "\x1b[31m", "\x1b[0m", ""]

/-- The per-thread `Logger` state: the precomputed thread-id display string
and the color fields, immutable after construction. -/
structure Logger where
  thread_id_str_ : String
  thread_color_ : String
  log_color_ : String
  warn_color_ : String
  error_color_ : String
  reset_ : String
deriving DecidableEq

/-- The `Logger` constructor: the thread-id display string and its hash are
inputs (the id is captured from the running thread); colors are set iff
stdout or stderr is a terminal, otherwise every color field stays `""`. -/
def Logger.construct (tid_str : String) (hash : Nat)
    (stdout_is_tty stderr_is_tty : Bool) : Logger :=
  let is_tty := stdout_is_tty || stderr_is_tty
  if is_tty then
    { thread_id_str_ := tid_str
      thread_color_ := compute_thread_color hash
      log_color_ := "\x1b[32m"
      warn_color_ := "\x1b[33m"
      error_color_ := "\x1b[31m"
      reset_ := "\x1b[0m" }
  else
    { thread_id_str_ := tid_str
      thread_color_ := ""
      log_color_ := ""
      warn_color_ := ""
      error_color_ := ""
      reset_ := "" }

/-- The two terminal streams a message can be dispatched to. -/
inductive TermStream
  | stdout
  | stderr
deriving DecidableEq

/-- The observable effect of one `Logger::write` call: which terminal stream
received the message, the exact terminal bytes, the bytes appended to the
file (when the sink is open), and whether the file was flushed. -/
structure Output where
  stream : TermStream
  terminalLine : String
  fileLine : Option (List Char)
  fileFlushed : Bool
deriving DecidableEq

/-- Embeds `Logger::write(msg, flush, use_stderr)` with the sink's
`file.is_open()` as `fileOpen`: pick cerr or cout, write `msg` plus a newline
to it, and if the file is open call `write_to_file(msg)` and flush only when
asked. -/
def Logger.write (msg : String) (flush : Bool) (use_stderr : Bool)
    (fileOpen : Bool) : Output :=
  { stream := if use_stderr then TermStream.stderr else TermStream.stdout
    terminalLine := msg ++ "\n"
    fileLine := if fileOpen then some (write_to_file msg.data) else none
    fileFlushed := fileOpen && flush }

/-- The decorated-message composition shared by all four severities:
`thread_color_` plus the formatted thread tag `[THREAD <id>] `, then the
level color, the level label, the body and `reset_`. -/
def Logger.decorated (L : Logger) (level_color label body : String) : String :=
  L.thread_color_ ++ ("[THREAD " ++ L.thread_id_str_ ++ "] ")
    ++ level_color ++ label ++ body ++ L.reset_

/-- Embeds `Logger::log`: decorate with `log_color_` and `"[LOG]: "`, then
`write(msg, flush=false)` (stdout, no flush). -/
def Logger.log (L : Logger) (body : String) (fileOpen : Bool) : Output :=
  Logger.write (L.decorated L.log_color_ "[LOG]: " body) false false fileOpen

/-- Embeds `Logger::err`: decorate with `error_color_` and `"[ERROR]: "`,
then `write(msg, flush=true, use_stderr=true)`. -/
def Logger.err (L : Logger) (body : String) (fileOpen : Bool) : Output :=
  Logger.write (L.decorated L.error_color_ "[ERROR]: " body) true true fileOpen

/-- Embeds `Logger::warn`: decorate with `warn_color_` and `"[WARNING]: "`,
then `write(msg, flush=false, use_stderr=true)`. -/
def Logger.warn (L : Logger) (body : String) (fileOpen : Bool) : Output :=
  Logger.write (L.decorated L.warn_color_ "[WARNING]: " body) false true fileOpen

/-- Embeds `Logger::dbg`: under `if constexpr (IS_DEBUG_BUILD)` decorate with
`log_color_` and `"[DEBUG]: "` and `write(msg, flush=false)`; in a release
build the whole body is elided, producing no effect at all (`none`). -/
def Logger.dbg (isDebugBuild : Bool) (L : Logger) (body : String)
    (fileOpen : Bool) : Option Output :=
  if isDebugBuild then
    some (Logger.write (L.decorated L.log_color_ "[DEBUG]: " body) false false fileOpen)
  else
    none

/-- The four severities. -/
inductive Level
  | log
  | warn
  | err
  | dbg
deriving DecidableEq

/-- The level label each severity method passes to the composition. -/
def levelLabel : Level → String
  | .log => "[LOG]: "
  | .warn => "[WARNING]: "
  | .err => "[ERROR]: "
  | .dbg => "[DEBUG]: "

/-- One log call at a given severity (`dbg` as compiled in a debug build). -/
def dispatch (lvl : Level) (L : Logger) (body : String) (fileOpen : Bool) :
    Output :=
  match lvl with
  | .log => L.log body fileOpen
  | .warn => L.warn body fileOpen
  | .err => L.err body fileOpen
  | .dbg => Logger.write (L.decorated L.log_color_ "[DEBUG]: " body) false false fileOpen

/-- The color-free content of one decorated line: the bracketed thread tag
`[THREAD <t>] `, the level label and the body. -/
def plainContent (tid label body : String) : List Char :=
  ("[THREAD " ++ tid ++ "] " ++ label ++ body).data

/-- The file-system view the sink acts on: each path maps to the bytes of an
existing file, or `none` when no file exists there. -/
structure FS where
  files : String → Option (List Char)

/-- The `LogSink` handle state: the path of the currently open file, or
`none` when closed. -/
structure Sink where
  handle : Option String
deriving DecidableEq

/-- Embeds `LogSink::is_open`. -/
def Sink.is_open (s : Sink) : Bool := s.handle.isSome

/-- Embeds `LogSink::close`: close the handle if open; idempotent. -/
def Sink.closeFile (s : Sink) : Sink :=
  if s.handle.isSome then { handle := none } else s

/-- Embeds `LogSink::open(path, append)`: close any open handle first, then
open `path` in write mode with `std::ios::app` when `append` is true and
`std::ios::trunc` otherwise, and return `file.is_open()`. `osOk path` models
whether the OS-level open of `path` succeeds. -/
def Sink.openFile (osOk : String → Bool) (s : Sink) (fs : FS)
    (path : String) (append : Bool) : Bool × Sink × FS :=
  let s1 := Sink.closeFile s
  if osOk path then
    (true, { handle := some path },
     { files := fun p =>
         if p = path then some (if append then (fs.files p).getD [] else [])
         else fs.files p })
  else
    (false, s1, fs)

theorem stripAnsiAux_eq_spec (l : List Char) :
    stripAnsiAux false l = stripAnsiSpec l
      ∧ stripAnsiAux true l = stripAnsiSpec (dropEscapeSpan l) := by
  induction l with
  | nil => constructor <;> simp [stripAnsiAux, stripAnsiSpec, dropEscapeSpan]
  | cons c rest ih =>
      refine ⟨?_, ?_⟩
      · by_cases h : c = escChar
        · simp [stripAnsiAux, stripAnsiSpec, h, ih.2]
        · simp [stripAnsiAux, stripAnsiSpec, h, ih.1]
      · by_cases hl : isAsciiLetter c
        · simp [stripAnsiAux, dropEscapeSpan, hl, ih.1]
        · simp [stripAnsiAux, dropEscapeSpan, hl, ih.2]

/-- C3: For every input byte sequence, `write_to_file` outputs exactly the
claimed spec-level stripping (every ESC-opened span of non-alphabetic bytes
terminated by one ASCII letter removed, nothing else removed, an unterminated
span discarding the remainder) followed by a single trailing line terminator. -/
theorem write_to_file_eq_spec (msg : List Char) :
    write_to_file msg = stripAnsiSpec msg ++ [lineFeed] := by
  unfold write_to_file stripAnsi
  rw [(stripAnsiAux_eq_spec msg).1]

theorem stripAnsiAux_false_of_no_esc (msg : List Char)
    (h : ∀ c ∈ msg, c ≠ escChar) : stripAnsiAux false msg = msg := by
  induction msg with
  | nil => rfl
  | cons c rest ih =>
      have hc : c ≠ escChar := h c (List.mem_cons_self c rest)
      have hrest : ∀ x ∈ rest, x ≠ escChar :=
        fun x hx => h x (List.mem_cons_of_mem c hx)
      simp only [stripAnsiAux, if_neg hc]
      rw [ih hrest]

/-- C4: On every input containing no ESC byte, `write_to_file` is the
identity followed only by the single trailing line terminator. -/
theorem write_to_file_id_of_no_esc (msg : List Char)
    (h : ∀ c ∈ msg, c ≠ escChar) :
    write_to_file msg = msg ++ [lineFeed] := by
  unfold write_to_file stripAnsi
  rw [stripAnsiAux_false_of_no_esc msg h]

/-- Witness for C4 at the concrete escape-free input "abc". -/
theorem write_to_file_id_of_no_esc_witness :
    (∀ c ∈ ([Char.ofNat 97, Char.ofNat 98, Char.ofNat 99] : List Char), c ≠ escChar)
      ∧ write_to_file [Char.ofNat 97, Char.ofNat 98, Char.ofNat 99]
          = [Char.ofNat 97, Char.ofNat 98, Char.ofNat 99] ++ [lineFeed] :=
  ⟨by decide, write_to_file_id_of_no_esc _ (by decide)⟩

theorem escChar_not_mem_stripAnsiAux (b : Bool) (msg : List Char) :
    ∀ c ∈ stripAnsiAux b msg, c ≠ escChar := by
  induction msg generalizing b with
  | nil => intro c hc; cases b <;> simp [stripAnsiAux] at hc
  | cons c rest ih =>
      intro x hx
      cases b with
      | true =>
          by_cases h : isAsciiLetter c
          · simp only [stripAnsiAux, h, if_true] at hx
            exact ih false x hx
          · simp only [stripAnsiAux, h, Bool.false_eq_true, if_false] at hx
            exact ih true x hx
      | false =>
          by_cases h : c = escChar
          · simp only [stripAnsiAux, if_pos h] at hx
            exact ih true x hx
          · simp only [stripAnsiAux, if_neg h, List.mem_cons] at hx
            rcases hx with rfl | hx
            · exact h
            · exact ih false x hx

/-- C10: The stripping pass is idempotent — its output contains no ESC byte,
so applying the pass again to its own output (the line terminator aside)
returns that output unchanged. -/
theorem stripAnsi_idempotent (msg : List Char) :
    (∀ c ∈ stripAnsi msg, c ≠ escChar)
      ∧ stripAnsi (stripAnsi msg) = stripAnsi msg := by
  refine ⟨escChar_not_mem_stripAnsiAux false msg, ?_⟩
  exact stripAnsiAux_false_of_no_esc _ (escChar_not_mem_stripAnsiAux false msg)

/-- C2 counterexample: with the file sink open, a `warn` call does not flush
the file (`Logger::warn` passes `flush=false` to `Logger::write`), refuting
the claim that every `warn` call flushes immediately. -/
theorem warn_does_not_flush_cex :
    (Logger.warn (Logger.construct "1" 0 false false) "x" true).fileFlushed
      = false := rfl

/-- C2 (amended): while the file sink is open, only `err` flushes the file
immediately after its line is written; `warn`, `log` and (debug-build) `dbg`
do not flush; with the sink closed nothing is flushed. -/
theorem flush_policy (L : Logger) (body : String) :
    (L.err body true).fileFlushed = true
      ∧ (L.warn body true).fileFlushed = false
      ∧ (L.log body true).fileFlushed = false
      ∧ (Logger.dbg true L body true).map Output.fileFlushed = some false
      ∧ (L.err body false).fileFlushed = false :=
  ⟨rfl, rfl, rfl, rfl, rfl⟩

/-- C6: `err` and `warn` dispatch their decorated message to the standard
error stream, `log` and debug-build `dbg` to the standard output stream, and
each call targets exactly one stream. -/
theorem stream_policy (L : Logger) (body : String) (fo : Bool) :
    (L.err body fo).stream = TermStream.stderr
      ∧ (L.warn body fo).stream = TermStream.stderr
      ∧ (L.log body fo).stream = TermStream.stdout
      ∧ (Logger.dbg true L body fo).map Output.stream = some TermStream.stdout :=
  ⟨rfl, rfl, rfl, rfl⟩

theorem compute_thread_color_mem (hash : Nat) :
    compute_thread_color hash ∈ colors := by
  unfold compute_thread_color
  have h9 : hash % 9 < 9 := Nat.mod_lt _ (by norm_num)
  set k := hash % 9 with hk
  interval_cases k <;> simp [colors]

/-- C7: On a terminal (stdout or stderr a tty), the accent color of a thread
is `compute_thread_color` of the hash of its identifier, which indexes the
fixed 9-entry palette with `hash % 9`; it always lands in the palette and
depends only on `hash % 9`, so the same identifier always yields the same
palette entry. -/
theorem thread_color_policy (tid : String) (hash : Nat) (so se : Bool) :
    (Logger.construct tid hash true se).thread_color_ = compute_thread_color hash
      ∧ (Logger.construct tid hash so true).thread_color_ = compute_thread_color hash
      ∧ compute_thread_color hash = colors.getD (hash % 9) ""
      ∧ compute_thread_color hash ∈ colors
      ∧ colors.length = 9
      ∧ compute_thread_color hash = compute_thread_color (hash % 9) := by
  refine ⟨?_, ?_, rfl, compute_thread_color_mem hash, rfl, ?_⟩
  · simp [Logger.construct]
  · simp [Logger.construct]
  · unfold compute_thread_color
    have : hash % 9 % 9 = hash % 9 := Nat.mod_mod_of_dvd _ dvd_rfl
    rw [this]

/-- C8: In a release build `dbg` is elided entirely — it produces no output
event at all (no stream write, no file write, no flush, sink untouched);
in a debug build `dbg` is exactly a `write` of the same decorated form as
`log` (same thread tag, same level color, same stream, same flush policy),
with its own `"[DEBUG]: "` label. -/
theorem dbg_policy (L : Logger) (body : String) (fo : Bool) :
    Logger.dbg false L body fo = none
      ∧ Logger.dbg true L body fo
          = some (Logger.write (L.decorated L.log_color_ "[DEBUG]: " body) false false fo)
      ∧ L.log body fo
          = Logger.write (L.decorated L.log_color_ "[LOG]: " body) false false fo
      ∧ (Logger.dbg true L body fo).map Output.stream = some (L.log body fo).stream
      ∧ (Logger.dbg true L body fo).map Output.fileFlushed
          = some (L.log body fo).fileFlushed :=
  ⟨rfl, rfl, rfl, rfl, rfl⟩

/-- C5: For every sink state, `openFile` closes any previously open handle
(the old handle never survives), opens `path` truncating unless `append` is
true (appending preserves existing bytes), and returns true exactly when the
resulting handle is open. -/
theorem openFile_spec (osOk : String → Bool) (s : Sink) (fs : FS)
    (path : String) (append : Bool) :
    (Sink.openFile osOk s fs path append).1 = osOk path
      ∧ (Sink.openFile osOk s fs path append).2.1.handle
          = (if osOk path then some path else none)
      ∧ (Sink.openFile osOk s fs path append).2.2.files path
          = (if osOk path then some (if append then (fs.files path).getD [] else [])
             else fs.files path)
      ∧ (Sink.openFile osOk s fs path append).1
          = (Sink.openFile osOk s fs path append).2.1.is_open := by
  cases h : osOk path <;> cases hh : s.handle <;>
    simp [Sink.openFile, Sink.closeFile, Sink.is_open, h, hh]

/-- C9: If `openFile` returns false the sink is left with no open handle —
the previously open handle is already closed and not restored, `is_open` is
false — and a subsequent `Logger::write` against that sink writes to the
terminal only: no file line and no flush. -/
theorem openFile_fail_leaves_closed (osOk : String → Bool) (s : Sink) (fs : FS)
    (path msg : String) (append flush use_stderr : Bool)
    (h : (Sink.openFile osOk s fs path append).1 = false) :
    (Sink.openFile osOk s fs path append).2.1.handle = none
      ∧ (Sink.openFile osOk s fs path append).2.1.is_open = false
      ∧ (Logger.write msg flush use_stderr
          ((Sink.openFile osOk s fs path append).2.1.is_open)).fileLine = none
      ∧ (Logger.write msg flush use_stderr
          ((Sink.openFile osOk s fs path append).2.1.is_open)).fileFlushed = false := by
  have hk : osOk path = false := by
    by_contra hp
    rw [Bool.not_eq_false] at hp
    simp [Sink.openFile, hp] at h
  cases hh : s.handle <;>
    simp [Sink.openFile, Sink.closeFile, Sink.is_open, Logger.write, hk, hh]

/-- Witness for C9: a failing open (the OS refuses every path) over a sink
that previously had "old.log" open leaves the handle closed and a subsequent
write file-less. -/
theorem openFile_fail_leaves_closed_witness :
    (Sink.openFile (fun _ => false) { handle := some "old.log" }
        { files := fun _ => none } "new.log" false).1 = false
      ∧ ((Sink.openFile (fun _ => false) { handle := some "old.log" }
            { files := fun _ => none } "new.log" false).2.1.handle = none
        ∧ (Sink.openFile (fun _ => false) { handle := some "old.log" }
            { files := fun _ => none } "new.log" false).2.1.is_open = false
        ∧ (Logger.write "m" true false
            ((Sink.openFile (fun _ => false) { handle := some "old.log" }
              { files := fun _ => none } "new.log" false).2.1.is_open)).fileLine = none
        ∧ (Logger.write "m" true false
            ((Sink.openFile (fun _ => false) { handle := some "old.log" }
              { files := fun _ => none } "new.log" false).2.1.is_open)).fileFlushed = false) :=
  ⟨rfl, openFile_fail_leaves_closed _ _ _ _ _ _ _ _ rfl⟩

theorem strip_clean_append (a b : List Char) (h : ∀ c ∈ a, c ≠ escChar) :
    stripAnsiAux false (a ++ b) = a ++ stripAnsiAux false b := by
  induction a with
  | nil => simp
  | cons c cs ih =>
      have hc : c ≠ escChar := h c (List.mem_cons_self c cs)
      have hcs : ∀ x ∈ cs, x ≠ escChar := fun x hx => h x (List.mem_cons_of_mem c hx)
      simp only [List.cons_append, stripAnsiAux, if_neg hc]
      exact congrArg (List.cons c) (ih hcs)

theorem strip_color_append (s : String) (hs : s ∈ colorUniverse) (b : List Char) :
    stripAnsiAux false (s.data ++ b) = stripAnsiAux false b := by
  fin_cases hs <;> rfl

theorem construct_fields (tid : String) (hash : Nat) (so se : Bool) :
    (Logger.construct tid hash so se).thread_id_str_ = tid
      ∧ (Logger.construct tid hash so se).thread_color_ ∈ colorUniverse
      ∧ (Logger.construct tid hash so se).log_color_ ∈ colorUniverse
      ∧ (Logger.construct tid hash so se).warn_color_ ∈ colorUniverse
      ∧ (Logger.construct tid hash so se).error_color_ ∈ colorUniverse
      ∧ (Logger.construct tid hash so se).reset_ ∈ colorUniverse := by
  cases h : (so || se) with
  | true =>
      refine ⟨by simp [Logger.construct, h], ?_, ?_, ?_, ?_, ?_⟩
      · simp only [Logger.construct, h, if_true]
        exact List.mem_append_left _ (compute_thread_color_mem hash)
      all_goals simp [Logger.construct, h, colorUniverse]
  | false =>
      refine ⟨by simp [Logger.construct, h], ?_, ?_, ?_, ?_, ?_⟩
      all_goals simp [Logger.construct, h, colorUniverse]

theorem strip_decorated_append (tc lc rc tid label body : String) (b : List Char)
    (htc : tc ∈ colorUniverse) (hlc : lc ∈ colorUniverse) (hrc : rc ∈ colorUniverse)
    (htid : ∀ c ∈ tid.data, c ≠ escChar)
    (hlabel : ∀ c ∈ label.data, c ≠ escChar)
    (hbody : ∀ c ∈ body.data, c ≠ escChar) :
    stripAnsiAux false
        ((tc ++ ("[THREAD " ++ tid ++ "] ") ++ lc ++ label ++ body ++ rc).data ++ b)
      = ("[THREAD " ++ tid ++ "] " ++ label ++ body).data ++ stripAnsiAux false b := by
  simp only [String.data_append, List.append_assoc]
  rw [strip_color_append tc htc]
  rw [strip_clean_append ("[THREAD ").data _ (by decide)]
  rw [strip_clean_append tid.data _ htid]
  rw [strip_clean_append ("] ").data _ (by decide)]
  rw [strip_color_append lc hlc]
  rw [strip_clean_append label.data _ hlabel]
  rw [strip_clean_append body.data _ hbody]
  rw [strip_color_append rc hrc]

/-- C1 counterexample: at thread display string "1" and body "x" (colors
off), the written content is `[THREAD 1] [LOG]: x` — the thread tag is
bracketed and followed by a space — not the claimed bare form
`THREAD 1 [LOG]: x`. -/
theorem thread_tag_bracketed_cex :
    (Logger.log (Logger.construct "1" 0 false false) "x" true).terminalLine
        = "[THREAD 1] [LOG]: x\n"
      ∧ (Logger.log (Logger.construct "1" 0 false false) "x" true).terminalLine
        ≠ "THREAD 1 [LOG]: x\n" :=
  ⟨rfl, by decide⟩

/-- C1 (amended): for every severity, every thread display string and body
free of ESC bytes, the content written — color-stripped from the terminal
line, and as the file line — is exactly `[THREAD <t>] [<LEVEL>]: <b>`
(bracketed thread tag, then the level label, then the body) plus the line
terminator; debug-build `dbg` dispatches exactly the `Level.dbg` call. -/
theorem decorated_content_form (lvl : Level) (tid body : String) (hash : Nat)
    (so se : Bool)
    (htid : ∀ c ∈ tid.data, c ≠ escChar)
    (hbody : ∀ c ∈ body.data, c ≠ escChar) :
    (dispatch lvl (Logger.construct tid hash so se) body true).fileLine
        = some (plainContent tid (levelLabel lvl) body ++ [lineFeed])
      ∧ stripAnsi
          ((dispatch lvl (Logger.construct tid hash so se) body true).terminalLine).data
        = plainContent tid (levelLabel lvl) body ++ [lineFeed]
      ∧ Logger.dbg true (Logger.construct tid hash so se) body true
        = some (dispatch Level.dbg (Logger.construct tid hash so se) body true) := by
  obtain ⟨h1, h2, h3, h4, h5, h6⟩ := construct_fields tid hash so se
  set L := Logger.construct tid hash so se with hL
  have core : ∀ (lc lbl : String), lc ∈ colorUniverse →
      (∀ c ∈ lbl.data, c ≠ escChar) → ∀ b : List Char,
      stripAnsiAux false ((L.decorated lc lbl body).data ++ b)
        = plainContent tid lbl body ++ stripAnsiAux false b := by
    intro lc lbl hlc hlbl b
    unfold Logger.decorated plainContent
    rw [h1]
    exact strip_decorated_append _ _ _ _ _ _ b h2 hlc h6 htid hlbl hbody
  have coreNil : ∀ (lc lbl : String), lc ∈ colorUniverse →
      (∀ c ∈ lbl.data, c ≠ escChar) →
      stripAnsi (L.decorated lc lbl body).data = plainContent tid lbl body := by
    intro lc lbl hlc hlbl
    have h := core lc lbl hlc hlbl []
    simpa [stripAnsi, stripAnsiAux] using h
  have coreNl : ∀ (lc lbl : String), lc ∈ colorUniverse →
      (∀ c ∈ lbl.data, c ≠ escChar) →
      stripAnsi ((L.decorated lc lbl body ++ "\n").data)
        = plainContent tid lbl body ++ [lineFeed] := by
    intro lc lbl hlc hlbl
    rw [stripAnsi, String.data_append, core lc lbl hlc hlbl]
    rfl
  cases lvl with
  | log =>
      refine ⟨?_, ?_, rfl⟩
      · simp only [dispatch, Logger.log, Logger.write, if_true, write_to_file]
        rw [coreNil L.log_color_ "[LOG]: " h3 (by decide)]; rfl
      · simp only [dispatch, Logger.log, Logger.write]
        exact coreNl L.log_color_ "[LOG]: " h3 (by decide)
  | warn =>
      refine ⟨?_, ?_, rfl⟩
      · simp only [dispatch, Logger.warn, Logger.write, if_true, write_to_file]
        rw [coreNil L.warn_color_ "[WARNING]: " h4 (by decide)]; rfl
      · simp only [dispatch, Logger.warn, Logger.write]
        exact coreNl L.warn_color_ "[WARNING]: " h4 (by decide)
  | err =>
      refine ⟨?_, ?_, rfl⟩
      · simp only [dispatch, Logger.err, Logger.write, if_true, write_to_file]
        rw [coreNil L.error_color_ "[ERROR]: " h5 (by decide)]; rfl
      · simp only [dispatch, Logger.err, Logger.write]
        exact coreNl L.error_color_ "[ERROR]: " h5 (by decide)
  | dbg =>
      refine ⟨?_, ?_, rfl⟩
      · simp only [dispatch, Logger.write, if_true, write_to_file]
        rw [coreNil L.log_color_ "[DEBUG]: " h3 (by decide)]; rfl
      · simp only [dispatch, Logger.write]
        exact coreNl L.log_color_ "[DEBUG]: " h3 (by decide)

/-- Witness for C1 (amended) at severity `err`, thread display string "1",
body "x", hash 0, on a terminal. -/
theorem decorated_content_form_witness :
    ((∀ c ∈ ("1" : String).data, c ≠ escChar)
        ∧ (∀ c ∈ ("x" : String).data, c ≠ escChar))
      ∧ ((dispatch Level.err (Logger.construct "1" 0 true false) "x" true).fileLine
            = some (plainContent "1" (levelLabel Level.err) "x" ++ [lineFeed])
        ∧ stripAnsi
            ((dispatch Level.err (Logger.construct "1" 0 true false) "x" true).terminalLine).data
            = plainContent "1" (levelLabel Level.err) "x" ++ [lineFeed]
        ∧ Logger.dbg true (Logger.construct "1" 0 true false) "x" true
            = some (dispatch Level.dbg (Logger.construct "1" 0 true false) "x" true)) :=
  ⟨⟨by decide, by decide⟩,
    decorated_content_form Level.err "1" "x" 0 true false (by decide) (by decide)⟩

end Mutils
